import Mathlib

/-!
Shallow embedding of the record-extraction core of `monster_generator_v2.py`
(class `OllamaMonsterGenerator`): the three fallback parsing strategies
`_parse_line_by_line`, `_parse_with_regex`, `_parse_flexible`, the shared
numeric helper `_extract_number`, the dispatcher `parse_monster_response`,
and the retry wrapper `generate_monster`.

Strings are modelled as `List Char`.  Character classes follow Python's
ASCII behaviour (`str.upper`, `str.strip`, `\d`, `\s`, `\w`, `\b`), which is
faithful on the ASCII texts the program handles.  The two regular-expression
shapes the source uses (`LABEL:\s*(.+?)(?:\n|$)` and `LABEL:\s*(\d+)`, both
IGNORECASE) are embedded as dedicated leftmost-occurrence search functions
with the exact backtracking semantics of Python `re.search` on those
patterns.
-/

/-- Conversion helper: Lean string literal to the `List Char` representation. -/
def str (s : String) : List Char := s.toList

/-- Python whitespace for `str.strip` / regex `\s` (ASCII). -/
def isSpc (c : Char) : Bool :=
  c = ' ' || c = '\t' || c = '\n' || c = '\x0d' || c = '\x0b' || c = '\x0c'

/-- Python `str.upper` on one ASCII character (identity on everything else). -/
def upChar (c : Char) : Char :=
  if c = 'a' then 'A' else if c = 'b' then 'B' else if c = 'c' then 'C'
  else if c = 'd' then 'D' else if c = 'e' then 'E' else if c = 'f' then 'F'
  else if c = 'g' then 'G' else if c = 'h' then 'H' else if c = 'i' then 'I'
  else if c = 'j' then 'J' else if c = 'k' then 'K' else if c = 'l' then 'L'
  else if c = 'm' then 'M' else if c = 'n' then 'N' else if c = 'o' then 'O'
  else if c = 'p' then 'P' else if c = 'q' then 'Q' else if c = 'r' then 'R'
  else if c = 's' then 'S' else if c = 't' then 'T' else if c = 'u' then 'U'
  else if c = 'v' then 'V' else if c = 'w' then 'W' else if c = 'x' then 'X'
  else if c = 'y' then 'Y' else if c = 'z' then 'Z' else c

/-- Uppercase a whole key, as `key.strip().upper()` does. -/
def toUpperL (s : List Char) : List Char := s.map upChar

/-- Python `str.strip()`: drop whitespace from both ends. -/
def strip (s : List Char) : List Char :=
  ((s.dropWhile isSpc).reverse.dropWhile isSpc).reverse

/-- Exact (case-sensitive) list-prefix test, used for substring containment. -/
def prefixCL : List Char → List Char → Bool
  | [], _ => true
  | _ :: _, [] => false
  | a :: as, b :: bs => if a = b then prefixCL as bs else false

/-- Python's `needle in hay` substring test on strings. -/
def containsSub (needle : List Char) : List Char → Bool
  | [] => prefixCL needle []
  | c :: cs => prefixCL needle (c :: cs) || containsSub needle cs

/-- Python `s.split(sep)` for a one-character separator (keeps empty pieces). -/
def splitOn (sep : Char) : List Char → List (List Char)
  | [] => [[]]
  | c :: cs =>
    if c = sep then [] :: splitOn sep cs
    else
      match splitOn sep cs with
      | [] => [[c]]
      | l :: ls => (c :: l) :: ls

/-- Python `line.split(sep, 1)` when it splits: key before the first `:`,
value after; `none` when the line has no colon (`':' not in line`). -/
def splitKV : List Char → Option (List Char × List Char)
  | [] => none
  | c :: cs =>
    if c = ':' then some ([], cs)
    else
      match splitKV cs with
      | none => none
      | some (k, v) => some (c :: k, v)

/-- Digit run to the integer Python `int` would produce. -/
def digitsToNat (ds : List Char) : Nat :=
  ds.foldl (fun acc c => acc * 10 + (c.toNat - 48)) 0

/-- The clamp `max(1, min(200, num))` of `_extract_number`. -/
def clamp (n : Nat) : Nat := max 1 (min 200 n)

/-- `_extract_number(text, default)`: first digit run, clamped to [1,200];
the caller-supplied default when no digit occurs. -/
def extractNumber (text : List Char) (default : Nat) : Nat :=
  match text.dropWhile (fun c => !c.isDigit) with
  | [] => default
  | rest => clamp (digitsToNat (rest.takeWhile Char.isDigit))

/-- Case-insensitive prefix match of an (uppercase) pattern literal against
the text, as IGNORECASE literal matching does. -/
def prefixCI : List Char → List Char → Bool
  | [], _ => true
  | _ :: _, [] => false
  | a :: as, b :: bs => if upChar b = a then prefixCI as bs else false

/-- Semantics of `\s*(.+?)(?:\n|$)` applied at the start of `r` (Python `re`,
no DOTALL/MULTILINE): greedily skip whitespace, then lazily capture at least
one non-newline character up to the next newline or the end; when `r` is all
whitespace, greedy backtracking captures the last non-newline character. -/
def restCapture (r : List Char) : Option (List Char) :=
  match r.dropWhile isSpc with
  | c :: cs => some (c :: cs.takeWhile (fun x => x ≠ '\n'))
  | [] =>
    match r.reverse.dropWhile (fun c => c = '\n') with
    | c :: _ => some [c]
    | [] => none

/-- Semantics of `\s*(\d+)` applied at the start of `r`: skip whitespace,
then require and capture a maximal digit run. -/
def numCapture (r : List Char) : Option Nat :=
  match r.dropWhile isSpc with
  | c :: cs =>
    if c.isDigit then some (digitsToNat ((c :: cs).takeWhile Char.isDigit))
    else none
  | [] => none

/-- `re.search(LABEL + r':\s*(.+?)(?:\n|$)', s, re.IGNORECASE).group(1)`:
scan for the leftmost occurrence of the label at which the tail pattern also
matches. -/
def searchLabelLine (label : List Char) : List Char → Option (List Char)
  | [] => none
  | c :: cs =>
    match
      (if prefixCI label (c :: cs) then restCapture ((c :: cs).drop label.length)
       else none) with
    | some g => some g
    | none => searchLabelLine label cs

/-- `re.search(LABEL + r':\s*(\d+)', s, re.IGNORECASE)` with the captured
digits converted by `int`. -/
def searchLabelNum (label : List Char) : List Char → Option Nat
  | [] => none
  | c :: cs =>
    match
      (if prefixCI label (c :: cs) then numCapture ((c :: cs).drop label.length)
       else none) with
    | some n => some n
    | none => searchLabelNum label cs

/-- Python `s.split()`: split on whitespace runs, dropping empty pieces. -/
def splitWsAux : List Char → List Char → List (List Char)
  | [], acc => if acc.isEmpty then [] else [acc.reverse]
  | c :: cs, acc =>
    if isSpc c then
      if acc.isEmpty then splitWsAux cs [] else acc.reverse :: splitWsAux cs []
    else splitWsAux cs (c :: acc)

/-- Python `s.split()` on a string. -/
def splitWs (s : List Char) : List (List Char) := splitWsAux s []

/-- Regex `\w`: ASCII word character. -/
def isWordCh (c : Char) : Bool := c.isAlphanum || c = '_'

/-- Maximal runs of word characters, the units bounded by `\b` word
boundaries. -/
def wordRunsAux : List Char → List Char → List (List Char)
  | [], acc => if acc.isEmpty then [] else [acc.reverse]
  | c :: cs, acc =>
    if isWordCh c then wordRunsAux cs (c :: acc)
    else if acc.isEmpty then wordRunsAux cs [] else acc.reverse :: wordRunsAux cs []

/-- Maximal word-character runs of a string. -/
def wordRuns (s : List Char) : List (List Char) := wordRunsAux s []

/-- The characters `',:;.!?'` stripped from name candidates in
`_parse_flexible`. -/
def isPunct (c : Char) : Bool :=
  c = ',' || c = ':' || c = ';' || c = '.' || c = '!' || c = '?'

/-- Python `w.strip(',:;.!?')`. -/
def stripPunct (s : List Char) : List Char :=
  ((s.dropWhile isPunct).reverse.dropWhile isPunct).reverse

/-- The five-key stat mapping `{HP, Attack, Defense, Speed, Special}`; a
field is `none` exactly when the corresponding key is absent from the Python
dict. -/
structure StatBlock where
  hp : Option Nat
  attack : Option Nat
  defense : Option Nat
  speed : Option Nat
  special : Option Nat
deriving DecidableEq, Repr

/-- The `Monster` dataclass of the source. -/
structure Monster where
  name : List Char
  type : List Char
  description : List Char
  stats : StatBlock
  abilities : List (List Char)
  evolutionStage : Nat
  rarity : List Char
deriving DecidableEq, Repr

/-- The mutable `data` dictionary built up by `_parse_line_by_line`. -/
structure LineData where
  name : Option (List Char)
  type : Option (List Char)
  description : Option (List Char)
  stats : StatBlock
  abilities : List (List Char)
  evolutionStage : Nat
  rarity : List Char
deriving DecidableEq, Repr

/-- The initial `data` dictionary of `_parse_line_by_line`. -/
def initLineData : LineData :=
  { name := none, type := none, description := none
    stats := ⟨none, none, none, none, none⟩
    abilities := [], evolutionStage := 1, rarity := str "Common" }

/-- Python truthiness of an optional string: present and non-empty. -/
def truthy : Option (List Char) → Bool
  | none => false
  | some s => !s.isEmpty

/-- Number of keys present in the stat mapping (`len(data['stats'])`). -/
def statCount (s : StatBlock) : Nat :=
  (if s.hp.isSome then 1 else 0) + (if s.attack.isSome then 1 else 0) +
  (if s.defense.isSome then 1 else 0) + (if s.speed.isSome then 1 else 0) +
  (if s.special.isSome then 1 else 0)

/-- The `elif` chain of `_parse_line_by_line` applied to one uppercased key
and its (non-empty, stripped) value. -/
def applyKV (d : LineData) (key value : List Char) : LineData :=
  if containsSub (str "NAME") key then { d with name := some value }
  else if containsSub (str "TYPE") key then { d with type := some value }
  else if containsSub (str "DESCRIPTION") key || containsSub (str "DESC") key then
    { d with description := some value }
  else if containsSub (str "HP") key then
    { d with stats := { d.stats with hp := some (extractNumber value 50) } }
  else if containsSub (str "ATTACK") key || containsSub (str "ATK") key then
    { d with stats := { d.stats with attack := some (extractNumber value 50) } }
  else if containsSub (str "DEFENSE") key || containsSub (str "DEF") key then
    { d with stats := { d.stats with defense := some (extractNumber value 50) } }
  else if containsSub (str "SPEED") key || containsSub (str "SPD") key then
    { d with stats := { d.stats with speed := some (extractNumber value 50) } }
  else if containsSub (str "SPECIAL") key || containsSub (str "SP") key then
    { d with stats := { d.stats with special := some (extractNumber value 50) } }
  else if containsSub (str "ABILITY") key || containsSub (str "MOVE") key then
    if ¬value.isEmpty ∧ value ∉ d.abilities then
      { d with abilities := d.abilities ++ [value] }
    else d
  else if containsSub (str "EVOLUTION") key || containsSub (str "STAGE") key ||
      containsSub (str "EVO") key then
    { d with evolutionStage := extractNumber value 1 }
  else if containsSub (str "RARITY") key || containsSub (str "RARE") key then
    { d with rarity := value }
  else d

/-- One iteration of the line loop of `_parse_line_by_line`: strip the line,
skip blanks and `#` comments and colon-free lines, split at the first colon,
skip empty values, then dispatch on the uppercased key. -/
def processLine (d : LineData) (line : List Char) : LineData :=
  if (strip line).isEmpty then d
  else if (strip line).headD ' ' = '#' then d
  else
    match splitKV (strip line) with
    | none => d
    | some (k, v) =>
      if (strip v).isEmpty then d
      else applyKV d (toUpperL (strip k)) (strip v)

/-- The whole line loop: `response.strip().split('\n')` folded through
`processLine`. -/
def scanLines (response : List Char) : LineData :=
  (splitOn '\n' (strip response)).foldl processLine initLineData

/-- The record built on stage-1 success: missing stats default to 50,
missing abilities to `['Tackle', 'Growl']`, missing description synthesized
from the type. -/
def buildStage1 (d : LineData) : Monster :=
  { name := d.name.getD []
    type := d.type.getD []
    description :=
      if truthy d.description then d.description.getD []
      else str "A " ++ d.type.getD [] ++ str "-type monster"
    stats :=
      { hp := some (d.stats.hp.getD 50), attack := some (d.stats.attack.getD 50)
        defense := some (d.stats.defense.getD 50)
        speed := some (d.stats.speed.getD 50)
        special := some (d.stats.special.getD 50) }
    abilities := if d.abilities.isEmpty then [str "Tackle", str "Growl"] else d.abilities
    evolutionStage := d.evolutionStage
    rarity := d.rarity }

/-- `_parse_line_by_line` (strategy 1). -/
def parseLineByLine (response : List Char) : Option Monster :=
  if truthy (scanLines response).name ∧ truthy (scanLines response).type ∧
      3 ≤ statCount (scanLines response).stats then
    some (buildStage1 (scanLines response))
  else none

/-- The `stats` dict collected by `_parse_with_regex`: one whole-text search
per stat label, the captured digits stored via `int(...)` with no clamping. -/
def regexStats (response : List Char) : StatBlock :=
  { hp := searchLabelNum (str "HP:") response
    attack := searchLabelNum (str "ATTACK:") response
    defense := searchLabelNum (str "DEFENSE:") response
    speed := searchLabelNum (str "SPEED:") response
    special := searchLabelNum (str "SPECIAL:") response }

/-- The `abilities` list collected by `_parse_with_regex` from the
`ABILITY1:`/`ABILITY2:`/`ABILITY3:` searches. -/
def regexAbilities (response : List Char) : List (List Char) :=
  ((searchLabelLine (str "ABILITY1:") response).map strip).toList ++
  ((searchLabelLine (str "ABILITY2:") response).map strip).toList ++
  ((searchLabelLine (str "ABILITY3:") response).map strip).toList

/-- `_parse_with_regex` (strategy 2): independent whole-text regex searches;
succeeds when name and type are truthy and the stat dict is non-empty. -/
def parseWithRegex (response : List Char) : Option Monster :=
  if truthy ((searchLabelLine (str "NAME:") response).map strip) ∧
      truthy ((searchLabelLine (str "TYPE:") response).map strip) ∧
      1 ≤ statCount (regexStats response) then
    some
      { name := ((searchLabelLine (str "NAME:") response).map strip).getD []
        type := ((searchLabelLine (str "TYPE:") response).map strip).getD []
        description :=
          ((searchLabelLine (str "DESCRIPTION:") response).map strip).getD
            (str "A " ++ ((searchLabelLine (str "TYPE:") response).map strip).getD [] ++
              str " type monster")
        stats := regexStats response
        abilities :=
          if (regexAbilities response).isEmpty then [str "Tackle"]
          else regexAbilities response
        evolutionStage := (searchLabelNum (str "EVOLUTION:") response).getD 1
        rarity := ((searchLabelLine (str "RARITY:") response).map strip).getD (str "Common") }
  else none

/-- The capitalized-word name candidates of `_parse_flexible`. -/
def potentialNames (response : List Char) : List (List Char) :=
  ((splitWs response).filter
    (fun w => (w.headD ' ').isUpper && decide (3 < w.length))).map stripPunct

/-- The `\b(\d{2,3})\b` matches of `_parse_flexible`, filtered to
`20 <= n <= 200`. -/
def flexNumbers (response : List Char) : List Nat :=
  (((wordRuns response).filter
      (fun r => r.all Char.isDigit && (decide (r.length = 2) || decide (r.length = 3)))).map
    digitsToNat).filter (fun n => decide (20 ≤ n) && decide (n ≤ 200))

/-- `_parse_flexible` (strategy 3): first capitalized word as name, the
in-range numbers assigned positionally to the stats. -/
def parseFlexible (response : List Char) : Option Monster :=
  if ¬(potentialNames response).isEmpty ∧ 3 ≤ (flexNumbers response).length then
    some
      { name := (potentialNames response).headD []
        type := str "Normal"
        description := str "A mysterious " ++ (potentialNames response).headD [] ++ str " creature"
        stats :=
          { hp := some ((flexNumbers response).getD 0 80)
            attack := some ((flexNumbers response).getD 1 60)
            defense := some ((flexNumbers response).getD 2 60)
            speed := some ((flexNumbers response).getD 3 60)
            special := some ((flexNumbers response).getD 4 60) }
        abilities := [str "Tackle", str "Defend"]
        evolutionStage := 1
        rarity := str "Common" }
  else none

/-- `parse_monster_response`: the three strategies in order, first success
wins; `None` when all fail.  (The surrounding `try/except` can only return
`None`; no strategy raises, so the embedding is the total function below.) -/
def parseMonsterResponse (response : List Char) : Option Monster :=
  match parseLineByLine response with
  | some m => some m
  | none =>
    match parseWithRegex response with
    | some m => some m
    | none => parseFlexible response

/-- One attempt of `generate_monster`: call the text source, and feed the
response to the extractor only when it is non-empty (`if response:`). -/
def attemptResult (oracle : Nat → List Char) (k : Nat) : Option Monster :=
  if (oracle k).isEmpty then none else parseMonsterResponse (oracle k)

/-- The retry loop of `generate_monster`, instrumented with the number of
attempts made (each attempt performs exactly one call to the text source). -/
def genAux (oracle : Nat → List Char) : Nat → Nat → Option Monster × Nat
  | _, 0 => (none, 0)
  | attempt, fuel + 1 =>
    match attemptResult oracle attempt with
    | some m => (some m, 1)
    | none =>
      let p := genAux oracle (attempt + 1) fuel
      (p.1, p.2 + 1)

/-- `generate_monster(retries)`: the result together with the number of
attempts (text-source calls) made. -/
def generateMonster (oracle : Nat → List Char) (retries : Nat) : Option Monster × Nat :=
  genAux oracle 0 retries

/-!  Invariants, helper lemmas, and the claim theorems. -/

def optClamped (o : Option Nat) : Prop := ∀ n, o = some n → 1 ≤ n ∧ n ≤ 200

def statsClamped (s : StatBlock) : Prop :=
  optClamped s.hp ∧ optClamped s.attack ∧ optClamped s.defense ∧
  optClamped s.speed ∧ optClamped s.special

def statFull (s : StatBlock) : Prop :=
  s.hp.isSome = true ∧ s.attack.isSome = true ∧ s.defense.isSome = true ∧
  s.speed.isSome = true ∧ s.special.isSome = true

def goodData (d : LineData) : Prop :=
  statsClamped d.stats ∧ (1 ≤ d.evolutionStage ∧ d.evolutionStage ≤ 200) ∧
  d.abilities.Nodup

/-- A stage-1 input whose EVOLUTION line carries 7. -/
def sampleEvo : List Char :=
  str "NAME: Abc\nTYPE: Fire\nHP: 10\nATTACK: 20\nDEFENSE: 30\nEVOLUTION: 7"

/-- The record stage 1 builds for `sampleEvo`. -/
def monsterEvo : Monster :=
  { name := str "Abc", type := str "Fire", description := str "A Fire-type monster"
    stats := ⟨some 10, some 20, some 30, some 50, some 50⟩
    abilities := [str "Tackle", str "Growl"], evolutionStage := 7, rarity := str "Common" }

/-- An input whose HP line carries 9999 and on which only stage 2 succeeds. -/
def sampleHp9999 : List Char := str "NAME: X\nTYPE: Y\nHP: 9999"

/-- A stage-1 input whose HP line carries 9999. -/
def sampleHpClamp : List Char := str "NAME: X\nTYPE: Y\nHP: 9999\nATTACK: 5\nDEFENSE: 5"
/-- The record stage 1 builds for `sampleHpClamp`: HP clamped to 200. -/
def monsterHpClamp : Monster :=
  { name := str "X", type := str "Y", description := str "A Y-type monster"
    stats := ⟨some 200, some 5, some 5, some 50, some 50⟩
    abilities := [str "Tackle", str "Growl"], evolutionStage := 1, rarity := str "Common" }

/-- An input on which only stage 2 succeeds, with a single stat key. -/
def sampleSpeed : List Char := str "NAME: X\nTYPE: Y\nSPEED: 42"

/-- The record stage 2 builds for `sampleSpeed`: only the Speed key present. -/
def monsterSpeed : Monster :=
  { name := str "X", type := str "Y", description := str "A Y type monster"
    stats := ⟨none, none, none, some 42, none⟩
    abilities := [str "Tackle"], evolutionStage := 1, rarity := str "Common" }

/-- The prose input of the degradation example. -/
def blazeText : List Char := str "Introducing Blazeclaw! Power 95, guard 70, swiftness 88."

/-- The record stage 3 builds for `blazeText`. -/
def monsterBlaze : Monster :=
  { name := str "Introducing", type := str "Normal"
    description := str "A mysterious Introducing creature"
    stats := ⟨some 95, some 70, some 88, some 60, some 60⟩
    abilities := [str "Tackle", str "Defend"], evolutionStage := 1, rarity := str "Common" }

/-- An input satisfying the stage-1 preconditions on which stage 2 would build a different record. -/
def sampleC5 : List Char := str "Name: Zed\nType: Fire\nhp: 5\natk: 6\ndef: 7"

/-- A line whose key contains SPECIAL, ATTACK and also NAME. -/
def trickyLine : List Char := str "name special attack: 80"

/-- A stage-1-parseable response used by the retry-wrapper witness. -/
def sampleC7 : List Char := str "NAME: Gila\nTYPE: Rock\nHP: 40\nATTACK: 41\nDEFENSE: 42"

/-- The record stage 1 builds for `sampleC7`. -/
def monsterC7 : Monster :=
  { name := str "Gila", type := str "Rock", description := str "A Rock-type monster"
    stats := ⟨some 40, some 41, some 42, some 50, some 50⟩
    abilities := [str "Tackle", str "Growl"], evolutionStage := 1, rarity := str "Common" }

/-- A text source whose first response is empty and whose later responses are
`sampleC7`. -/
def oracleC7 (k : Nat) : List Char := if k = 0 then [] else sampleC7

theorem clamp_range (n : Nat) : 1 ≤ clamp n ∧ clamp n ≤ 200 := by
  unfold clamp; omega

theorem extractNumber_range (v : List Char) (d : Nat) (h1 : 1 ≤ d) (h2 : d ≤ 200) :
    1 ≤ extractNumber v d ∧ extractNumber v d ≤ 200 := by
  unfold extractNumber
  split
  · exact ⟨h1, h2⟩
  · exact clamp_range _

theorem optClamped_none : optClamped none := by
  intro n hn; cases hn

theorem optClamped_extract (v : List Char) (d : Nat) (h1 : 1 ≤ d) (h2 : d ≤ 200) :
    optClamped (some (extractNumber v d)) := by
  intro n hn
  cases hn
  exact extractNumber_range v d h1 h2

theorem goodData_init : goodData initLineData :=
  ⟨⟨optClamped_none, optClamped_none, optClamped_none, optClamped_none,
    optClamped_none⟩, ⟨by decide, by decide⟩, by decide⟩

theorem applyKV_good {d : LineData} (hd : goodData d) (key value : List Char) :
    goodData (applyKV d key value) := by
  obtain ⟨⟨s1, s2, s3, s4, s5⟩, hevo, hab⟩ := hd
  unfold applyKV
  by_cases c1 : containsSub (str "NAME") key = true
  · rw [if_pos c1]; exact ⟨⟨s1, s2, s3, s4, s5⟩, hevo, hab⟩
  rw [if_neg c1]
  by_cases c2 : containsSub (str "TYPE") key = true
  · rw [if_pos c2]; exact ⟨⟨s1, s2, s3, s4, s5⟩, hevo, hab⟩
  rw [if_neg c2]
  by_cases c3 : (containsSub (str "DESCRIPTION") key || containsSub (str "DESC") key) = true
  · rw [if_pos c3]; exact ⟨⟨s1, s2, s3, s4, s5⟩, hevo, hab⟩
  rw [if_neg c3]
  by_cases c4 : containsSub (str "HP") key = true
  · rw [if_pos c4]
    exact ⟨⟨optClamped_extract value 50 (by omega) (by omega), s2, s3, s4, s5⟩, hevo, hab⟩
  rw [if_neg c4]
  by_cases c5 : (containsSub (str "ATTACK") key || containsSub (str "ATK") key) = true
  · rw [if_pos c5]
    exact ⟨⟨s1, optClamped_extract value 50 (by omega) (by omega), s3, s4, s5⟩, hevo, hab⟩
  rw [if_neg c5]
  by_cases c6 : (containsSub (str "DEFENSE") key || containsSub (str "DEF") key) = true
  · rw [if_pos c6]
    exact ⟨⟨s1, s2, optClamped_extract value 50 (by omega) (by omega), s4, s5⟩, hevo, hab⟩
  rw [if_neg c6]
  by_cases c7 : (containsSub (str "SPEED") key || containsSub (str "SPD") key) = true
  · rw [if_pos c7]
    exact ⟨⟨s1, s2, s3, optClamped_extract value 50 (by omega) (by omega), s5⟩, hevo, hab⟩
  rw [if_neg c7]
  by_cases c8 : (containsSub (str "SPECIAL") key || containsSub (str "SP") key) = true
  · rw [if_pos c8]
    exact ⟨⟨s1, s2, s3, s4, optClamped_extract value 50 (by omega) (by omega)⟩, hevo, hab⟩
  rw [if_neg c8]
  by_cases c9 : (containsSub (str "ABILITY") key || containsSub (str "MOVE") key) = true
  · rw [if_pos c9]
    by_cases c9a : ¬value.isEmpty = true ∧ value ∉ d.abilities
    · rw [if_pos c9a]
      exact ⟨⟨s1, s2, s3, s4, s5⟩, hevo,
        hab.append (List.nodup_singleton value) (List.disjoint_singleton.2 c9a.2)⟩
    · rw [if_neg c9a]; exact ⟨⟨s1, s2, s3, s4, s5⟩, hevo, hab⟩
  rw [if_neg c9]
  by_cases c10 : (containsSub (str "EVOLUTION") key || containsSub (str "STAGE") key ||
      containsSub (str "EVO") key) = true
  · rw [if_pos c10]
    exact ⟨⟨s1, s2, s3, s4, s5⟩, extractNumber_range value 1 (by omega) (by omega), hab⟩
  rw [if_neg c10]
  by_cases c11 : (containsSub (str "RARITY") key || containsSub (str "RARE") key) = true
  · rw [if_pos c11]; exact ⟨⟨s1, s2, s3, s4, s5⟩, hevo, hab⟩
  rw [if_neg c11]
  exact ⟨⟨s1, s2, s3, s4, s5⟩, hevo, hab⟩

theorem processLine_good {d : LineData} (hd : goodData d) (line : List Char) :
    goodData (processLine d line) := by
  unfold processLine
  by_cases h1 : (strip line).isEmpty = true
  · rw [if_pos h1]; exact hd
  rw [if_neg h1]
  by_cases h2 : (strip line).headD ' ' = '#'
  · rw [if_pos h2]; exact hd
  rw [if_neg h2]
  cases hkv : splitKV (strip line) with
  | none => exact hd
  | some kv =>
    obtain ⟨k, v⟩ := kv
    show goodData (if (strip v).isEmpty = true then d else applyKV d (toUpperL (strip k)) (strip v))
    by_cases h3 : (strip v).isEmpty = true
    · rw [if_pos h3]; exact hd
    · rw [if_neg h3]; exact applyKV_good hd _ _

theorem foldl_good (ls : List (List Char)) {d : LineData} (hd : goodData d) :
    goodData (ls.foldl processLine d) := by
  induction ls generalizing d with
  | nil => exact hd
  | cons l ls ih => exact ih (processLine_good hd l)

theorem scanLines_good (response : List Char) : goodData (scanLines response) :=
  foldl_good _ goodData_init

theorem optClamped_fill {o : Option Nat} (h : optClamped o) :
    optClamped (some (o.getD 50)) := by
  intro n hn
  cases hn
  cases o with
  | none => simp [Option.getD]
  | some x => simpa using h x rfl

theorem buildStage1_nodup {d : LineData} (hab : d.abilities.Nodup) :
    (buildStage1 d).abilities.Nodup := by
  show (if d.abilities.isEmpty = true then [str "Tackle", str "Growl"] else d.abilities).Nodup
  by_cases he : d.abilities.isEmpty = true
  · rw [if_pos he]; decide
  · rw [if_neg he]; exact hab

theorem stage1_props {r : List Char} {m : Monster} (h : parseLineByLine r = some m) :
    statFull m.stats ∧ statsClamped m.stats ∧ m.abilities.Nodup ∧
    1 ≤ m.evolutionStage ∧ m.evolutionStage ≤ 200 := by
  obtain ⟨⟨s1, s2, s3, s4, s5⟩, hevo, hab⟩ := scanLines_good r
  unfold parseLineByLine at h
  by_cases hc : truthy (scanLines r).name = true ∧ truthy (scanLines r).type = true ∧
      3 ≤ statCount (scanLines r).stats
  · rw [if_pos hc] at h
    injection h with h2
    subst h2
    exact ⟨⟨rfl, rfl, rfl, rfl, rfl⟩,
      ⟨optClamped_fill s1, optClamped_fill s2, optClamped_fill s3,
        optClamped_fill s4, optClamped_fill s5⟩,
      buildStage1_nodup hab, hevo.1, hevo.2⟩
  · rw [if_neg hc] at h; cases h

theorem stage1_eq {r : List Char} {m : Monster} (h : parseLineByLine r = some m) :
    parseMonsterResponse r = some m := by
  unfold parseMonsterResponse
  rw [h]

theorem parseWithRegex_statCount {r : List Char} {m : Monster}
    (h : parseWithRegex r = some m) : 1 ≤ statCount m.stats := by
  unfold parseWithRegex at h
  by_cases hc : truthy ((searchLabelLine (str "NAME:") r).map strip) = true ∧
      truthy ((searchLabelLine (str "TYPE:") r).map strip) = true ∧
      1 ≤ statCount (regexStats r)
  · rw [if_pos hc] at h
    injection h with h2
    subst h2
    exact hc.2.2
  · rw [if_neg hc] at h; cases h

theorem flexNumbers_mem {r : List Char} {n : Nat} (h : n ∈ flexNumbers r) :
    20 ≤ n ∧ n ≤ 200 := by
  unfold flexNumbers at h
  have hb := (List.mem_filter.1 h).2
  simp at hb
  exact hb

theorem optClamped_flex (r : List Char) (i dflt : Nat) (h1 : 1 ≤ dflt) (h2 : dflt ≤ 200) :
    optClamped (some ((flexNumbers r).getD i dflt)) := by
  intro n hn
  cases hn
  by_cases hi : i < (flexNumbers r).length
  · rw [List.getD_eq_getElem _ _ hi]
    have := flexNumbers_mem (List.getElem_mem hi)
    omega
  · rw [List.getD_eq_default _ _ (by omega)]
    omega

theorem parseFlexible_props {r : List Char} {m : Monster} (h : parseFlexible r = some m) :
    statFull m.stats ∧ statsClamped m.stats := by
  unfold parseFlexible at h
  by_cases hc : ¬(potentialNames r).isEmpty = true ∧ 3 ≤ (flexNumbers r).length
  · rw [if_pos hc] at h
    injection h with h2
    subst h2
    exact ⟨⟨rfl, rfl, rfl, rfl, rfl⟩,
      ⟨optClamped_flex r 0 80 (by omega) (by omega), optClamped_flex r 1 60 (by omega) (by omega),
        optClamped_flex r 2 60 (by omega) (by omega), optClamped_flex r 3 60 (by omega) (by omega),
        optClamped_flex r 4 60 (by omega) (by omega)⟩⟩
  · rw [if_neg hc] at h; cases h

theorem mem_of_dropWhile {c : Char} {p : Char → Bool} {s : List Char} :
    c ∈ s.dropWhile p → c ∈ s := by
  induction s with
  | nil => intro h; simp at h
  | cons a as ih =>
    intro h
    rw [List.dropWhile_cons] at h
    by_cases hpa : p a = true
    · rw [if_pos hpa] at h
      exact List.mem_cons_of_mem a (ih h)
    · rw [if_neg hpa] at h
      exact h

theorem mem_of_strip {c : Char} {s : List Char} (h : c ∈ strip s) : c ∈ s := by
  unfold strip at h
  rw [List.mem_reverse] at h
  have h2 := mem_of_dropWhile h
  rw [List.mem_reverse] at h2
  exact mem_of_dropWhile h2

theorem splitOn_ne_nil (sep : Char) (s : List Char) : splitOn sep s ≠ [] := by
  cases s with
  | nil => simp [splitOn]
  | cons c cs =>
    unfold splitOn
    by_cases h : c = sep
    · rw [if_pos h]; simp
    · rw [if_neg h]
      cases hr : splitOn sep cs <;> simp

theorem splitOn_mem (sep : Char) (s : List Char) :
    ∀ l c, l ∈ splitOn sep s → c ∈ l → c ∈ s := by
  induction s with
  | nil =>
    intro l c hl hc
    simp [splitOn] at hl
    subst hl
    simp at hc
  | cons a as ih =>
    intro l c hl hc
    unfold splitOn at hl
    by_cases ha : a = sep
    · rw [if_pos ha] at hl
      rcases List.mem_cons.1 hl with h | h
      · subst h; simp at hc
      · exact List.mem_cons_of_mem a (ih l c h hc)
    · rw [if_neg ha] at hl
      cases hr : splitOn sep as with
      | nil => exact absurd hr (splitOn_ne_nil sep as)
      | cons l0 ls =>
        rw [hr] at hl
        rcases List.mem_cons.1 hl with h | h
        · subst h
          rcases List.mem_cons.1 hc with h2 | h2
          · rw [h2]; exact List.mem_cons_self a as
          · have hl0 : l0 ∈ splitOn sep as := by
              rw [hr]; exact List.mem_cons_self l0 ls
            exact List.mem_cons_of_mem a (ih l0 c hl0 h2)
        · have hls : l ∈ splitOn sep as := by
            rw [hr]; exact List.mem_cons_of_mem l0 h
          exact List.mem_cons_of_mem a (ih l c hls hc)

theorem splitKV_none (l : List Char) (h : ':' ∉ l) : splitKV l = none := by
  induction l with
  | nil => rfl
  | cons c cs ih =>
    have hc : ¬(c = ':') := by
      intro he
      subst he
      exact h (List.mem_cons_self ':' cs)
    have hcs : ':' ∉ cs := fun hm => h (List.mem_cons_of_mem c hm)
    unfold splitKV
    rw [if_neg hc, ih hcs]

theorem processLine_skip (d : LineData) (line : List Char) (h : ':' ∉ line) :
    processLine d line = d := by
  unfold processLine
  by_cases h1 : (strip line).isEmpty = true
  · rw [if_pos h1]
  · rw [if_neg h1]
    by_cases h2 : (strip line).headD ' ' = '#'
    · rw [if_pos h2]
    · rw [if_neg h2]
      have hk : splitKV (strip line) = none :=
        splitKV_none _ (fun hm => h (mem_of_strip hm))
      rw [hk]

theorem foldl_skip (ls : List (List Char)) (d : LineData)
    (h : ∀ l ∈ ls, ':' ∉ l) : ls.foldl processLine d = d := by
  induction ls generalizing d with
  | nil => rfl
  | cons l ls ih =>
    rw [List.foldl_cons, processLine_skip d l (h l (List.mem_cons_self l ls))]
    exact ih d (fun x hx => h x (List.mem_cons_of_mem l hx))

theorem scanLines_noColon (r : List Char) (h : ':' ∉ r) :
    scanLines r = initLineData := by
  unfold scanLines
  apply foldl_skip
  intro l hl he
  exact h (mem_of_strip (splitOn_mem '\n' (strip r) l ':' hl he))

theorem parseLineByLine_noColon (r : List Char) (h : ':' ∉ r) :
    parseLineByLine r = none := by
  have hn : ¬(truthy (scanLines r).name = true ∧ truthy (scanLines r).type = true ∧
      3 ≤ statCount (scanLines r).stats) := by
    rw [scanLines_noColon r h]
    decide
  unfold parseLineByLine
  rw [if_neg hn]

theorem upChar_colon {c : Char} (h : upChar c = ':') : c = ':' := by
  unfold upChar at h
  by_cases h1 : c = 'a'
  · rw [if_pos h1] at h; exact absurd h (by decide)
  rw [if_neg h1] at h
  by_cases h2 : c = 'b'
  · rw [if_pos h2] at h; exact absurd h (by decide)
  rw [if_neg h2] at h
  by_cases h3 : c = 'c'
  · rw [if_pos h3] at h; exact absurd h (by decide)
  rw [if_neg h3] at h
  by_cases h4 : c = 'd'
  · rw [if_pos h4] at h; exact absurd h (by decide)
  rw [if_neg h4] at h
  by_cases h5 : c = 'e'
  · rw [if_pos h5] at h; exact absurd h (by decide)
  rw [if_neg h5] at h
  by_cases h6 : c = 'f'
  · rw [if_pos h6] at h; exact absurd h (by decide)
  rw [if_neg h6] at h
  by_cases h7 : c = 'g'
  · rw [if_pos h7] at h; exact absurd h (by decide)
  rw [if_neg h7] at h
  by_cases h8 : c = 'h'
  · rw [if_pos h8] at h; exact absurd h (by decide)
  rw [if_neg h8] at h
  by_cases h9 : c = 'i'
  · rw [if_pos h9] at h; exact absurd h (by decide)
  rw [if_neg h9] at h
  by_cases h10 : c = 'j'
  · rw [if_pos h10] at h; exact absurd h (by decide)
  rw [if_neg h10] at h
  by_cases h11 : c = 'k'
  · rw [if_pos h11] at h; exact absurd h (by decide)
  rw [if_neg h11] at h
  by_cases h12 : c = 'l'
  · rw [if_pos h12] at h; exact absurd h (by decide)
  rw [if_neg h12] at h
  by_cases h13 : c = 'm'
  · rw [if_pos h13] at h; exact absurd h (by decide)
  rw [if_neg h13] at h
  by_cases h14 : c = 'n'
  · rw [if_pos h14] at h; exact absurd h (by decide)
  rw [if_neg h14] at h
  by_cases h15 : c = 'o'
  · rw [if_pos h15] at h; exact absurd h (by decide)
  rw [if_neg h15] at h
  by_cases h16 : c = 'p'
  · rw [if_pos h16] at h; exact absurd h (by decide)
  rw [if_neg h16] at h
  by_cases h17 : c = 'q'
  · rw [if_pos h17] at h; exact absurd h (by decide)
  rw [if_neg h17] at h
  by_cases h18 : c = 'r'
  · rw [if_pos h18] at h; exact absurd h (by decide)
  rw [if_neg h18] at h
  by_cases h19 : c = 's'
  · rw [if_pos h19] at h; exact absurd h (by decide)
  rw [if_neg h19] at h
  by_cases h20 : c = 't'
  · rw [if_pos h20] at h; exact absurd h (by decide)
  rw [if_neg h20] at h
  by_cases h21 : c = 'u'
  · rw [if_pos h21] at h; exact absurd h (by decide)
  rw [if_neg h21] at h
  by_cases h22 : c = 'v'
  · rw [if_pos h22] at h; exact absurd h (by decide)
  rw [if_neg h22] at h
  by_cases h23 : c = 'w'
  · rw [if_pos h23] at h; exact absurd h (by decide)
  rw [if_neg h23] at h
  by_cases h24 : c = 'x'
  · rw [if_pos h24] at h; exact absurd h (by decide)
  rw [if_neg h24] at h
  by_cases h25 : c = 'y'
  · rw [if_pos h25] at h; exact absurd h (by decide)
  rw [if_neg h25] at h
  by_cases h26 : c = 'z'
  · rw [if_pos h26] at h; exact absurd h (by decide)
  rw [if_neg h26] at h
  exact h

theorem prefixCI_colon : ∀ (label s : List Char), ':' ∈ label →
    prefixCI label s = true → ':' ∈ s := by
  intro label
  induction label with
  | nil => intro s hm; simp at hm
  | cons a as ih =>
    intro s hm hp
    cases s with
    | nil => simp [prefixCI] at hp
    | cons b bs =>
      unfold prefixCI at hp
      by_cases hu : upChar b = a
      · rw [if_pos hu] at hp
        rcases List.mem_cons.1 hm with h | h
        · have hb : b = ':' := upChar_colon (hu.trans h.symm)
          rw [hb]
          exact List.mem_cons_self ':' bs
        · exact List.mem_cons_of_mem b (ih bs h hp)
      · rw [if_neg hu] at hp
        simp at hp

theorem searchLabelLine_colon_none (label : List Char) (hl : ':' ∈ label) :
    ∀ s : List Char, ':' ∉ s → searchLabelLine label s = none := by
  intro s
  induction s with
  | nil => intro _; rfl
  | cons c cs ih =>
    intro h
    have hp : ¬(prefixCI label (c :: cs) = true) := by
      intro hpp
      exact h (prefixCI_colon label (c :: cs) hl hpp)
    unfold searchLabelLine
    rw [if_neg hp]
    exact ih (fun hm => h (List.mem_cons_of_mem c hm))

theorem parseWithRegex_noColon (r : List Char) (h : ':' ∉ r) :
    parseWithRegex r = none := by
  have hname : searchLabelLine (str "NAME:") r = none :=
    searchLabelLine_colon_none (str "NAME:") (by decide) r h
  have hcond : ¬(truthy ((searchLabelLine (str "NAME:") r).map strip) = true ∧
      truthy ((searchLabelLine (str "TYPE:") r).map strip) = true ∧
      1 ≤ statCount (regexStats r)) := by
    intro hc
    rw [hname] at hc
    exact absurd hc.1 (by decide)
  unfold parseWithRegex
  rw [if_neg hcond]

theorem parseFlexible_short (r : List Char) (h : (flexNumbers r).length < 3) :
    parseFlexible r = none := by
  unfold parseFlexible
  rw [if_neg (fun hc => absurd hc.2 (by omega))]

theorem genAux_succ (oracle : Nat → List Char) (start n : Nat) :
    genAux oracle start (n + 1) =
      match attemptResult oracle start with
      | some m => (some m, 1)
      | none => ((genAux oracle (start + 1) n).1, (genAux oracle (start + 1) n).2 + 1) := rfl

theorem genAux_spec (oracle : Nat → List Char) :
    ∀ fuel start : Nat,
      (genAux oracle start fuel).2 ≤ fuel ∧
      (∀ m, (genAux oracle start fuel).1 = some m →
        ∃ i, i < fuel ∧ attemptResult oracle (start + i) = some m ∧
          ∀ j, j < i → attemptResult oracle (start + j) = none) ∧
      ((∀ i, i < fuel → attemptResult oracle (start + i) = none) →
        (genAux oracle start fuel).1 = none) ∧
      (∀ i m, i < fuel → attemptResult oracle (start + i) = some m →
        (∀ j, j < i → attemptResult oracle (start + j) = none) →
        (genAux oracle start fuel).1 = some m) := by
  intro fuel
  induction fuel with
  | zero =>
    intro start
    refine ⟨Nat.le_refl 0, ?_, ?_, ?_⟩
    · intro m hm
      cases hm
    · intro _
      rfl
    · intro i m hi
      exact absurd hi (by omega)
  | succ n ih =>
    intro start
    cases h : attemptResult oracle start with
    | some m0 =>
      simp only [genAux_succ, h]
      refine ⟨by omega, ?_, ?_, ?_⟩
      · intro m hm
        injection hm with hm2
        refine ⟨0, by omega, ?_, ?_⟩
        · rw [Nat.add_zero, h, hm2]
        · intro j hj
          omega
      · intro hall
        have h0 := hall 0 (by omega)
        rw [Nat.add_zero, h] at h0
        cases h0
      · intro i m hi hat hprev
        cases i with
        | zero =>
          rw [Nat.add_zero, h] at hat
          exact hat
        | succ k =>
          have h0 := hprev 0 (by omega)
          rw [Nat.add_zero, h] at h0
          cases h0
    | none =>
      simp only [genAux_succ, h]
      obtain ⟨ihc, ihs, ihn, ihe⟩ := ih (start + 1)
      refine ⟨by omega, ?_, ?_, ?_⟩
      · intro m hm
        obtain ⟨i, hi, hat, hprev⟩ := ihs m hm
        refine ⟨i + 1, by omega, ?_, ?_⟩
        · have he : start + (i + 1) = start + 1 + i := by omega
          rw [he]
          exact hat
        · intro j hj
          cases j with
          | zero => rw [Nat.add_zero]; exact h
          | succ k =>
            have he : start + (k + 1) = start + 1 + k := by omega
            rw [he]
            exact hprev k (by omega)
      · intro hall
        apply ihn
        intro i hi
        have hx := hall (i + 1) (by omega)
        have he : start + (i + 1) = start + 1 + i := by omega
        rw [he] at hx
        exact hx
      · intro i m hi hat hprev
        cases i with
        | zero =>
          rw [Nat.add_zero, h] at hat
          cases hat
        | succ k =>
          apply ihe k m (by omega)
          · have he : start + (k + 1) = start + 1 + k := by omega
            rw [he] at hat
            exact hat
          · intro j hj
            have he : start + 1 + j = start + (j + 1) := by omega
            rw [he]
            exact hprev (j + 1) (by omega)

/-- Claim C1, counterexample: on an input whose stage-1 parse succeeds with an
`EVOLUTION: 7` line, the returned record has `evolutionStage = 7`, which is not
in {1,2,3}; `_extract_number` only clamps the stage into [1,200]. -/
theorem claim_C1_counterexample :
    parseLineByLine sampleEvo = some monsterEvo ∧
    (parseMonsterResponse sampleEvo).map (fun m => m.evolutionStage) = some 7 ∧
    ¬(7 = 1 ∨ 7 = 2 ∨ 7 = 3) := by decide

/-- Claim C1 (amended): for every input on which the stage-1 line-by-line
parse succeeds, the returned record has all five stat entries with each value
in [1,200], an abilities list with no duplicates, and an evolutionStage in
[1,200] (clamped, not restricted to {1,2,3}). -/
theorem claim_C1_amended (r : List Char) (m : Monster) (h : parseLineByLine r = some m) :
    statFull m.stats ∧ statsClamped m.stats ∧ m.abilities.Nodup ∧
    1 ≤ m.evolutionStage ∧ m.evolutionStage ≤ 200 :=
  stage1_props h

/-- Claim C1 witness: the amended claim instantiated at a concrete stage-1
success. -/
theorem claim_C1_witness :
    statFull monsterEvo.stats ∧ statsClamped monsterEvo.stats ∧
    monsterEvo.abilities.Nodup ∧
    1 ≤ monsterEvo.evolutionStage ∧ monsterEvo.evolutionStage ≤ 200 :=
  claim_C1_amended sampleEvo monsterEvo (by decide)

/-- Claim C2, counterexample: on `NAME: X\nTYPE: Y\nHP: 9999` stage 1 fails
(fewer than 3 stats) and stage 2 returns a record whose HP is the unclamped
9999, so not every returned record has stats in [1,200]. -/
theorem claim_C2_counterexample :
    (parseMonsterResponse sampleHp9999).map (fun m => m.stats.hp) = some (some 9999) ∧
    ¬(9999 ≤ 200) := by decide

/-- Claim C2 (amended): every stat value in a record returned by stage 1
(line-by-line) or stage 3 (flexible) lies in the clamp range [1,200]; stage-2
records may carry unclamped values. -/
theorem claim_C2_amended (r : List Char) (m : Monster)
    (h : parseLineByLine r = some m ∨ parseFlexible r = some m) :
    statsClamped m.stats := by
  cases h with
  | inl h1 => exact (stage1_props h1).2.1
  | inr h3 => exact (parseFlexible_props h3).2

/-- Claim C2 witness: a stage-1 input whose HP line carries 9999 yields an HP
stat of exactly 200, and the whole record is clamped. -/
theorem claim_C2_witness :
    (parseLineByLine sampleHpClamp = some monsterHpClamp ∧
      monsterHpClamp.stats.hp = some 200) ∧
    statsClamped monsterHpClamp.stats :=
  ⟨⟨by decide, by decide⟩,
    claim_C2_amended sampleHpClamp monsterHpClamp (Or.inl (by decide))⟩

/-- Claim C3, counterexample: on `NAME: X\nTYPE: Y\nSPEED: 42` extraction
returns a record (via stage 2) whose stats mapping lacks the HP key, so a
partially-populated record does reach the caller. -/
theorem claim_C3_counterexample :
    (parseMonsterResponse sampleSpeed).isSome = true ∧
    (parseMonsterResponse sampleSpeed).map (fun m => m.stats.hp) = some none := by decide

/-- Claim C3 (amended): every extraction result is either Failure or a
record; records from stages 1 and 3 carry all five stat keys, while a record
from stage 2 is only guaranteed at least one stat key. -/
theorem claim_C3_amended (r : List Char) (m : Monster)
    (h : parseMonsterResponse r = some m) :
    statFull m.stats ∨ (parseWithRegex r = some m ∧ 1 ≤ statCount m.stats) := by
  unfold parseMonsterResponse at h
  cases h1 : parseLineByLine r with
  | some m1 =>
    rw [h1] at h
    simp only at h
    injection h with h2
    subst h2
    exact Or.inl (stage1_props h1).1
  | none =>
    rw [h1] at h
    simp only at h
    cases h2 : parseWithRegex r with
    | some m2 =>
      rw [h2] at h
      simp only at h
      injection h with h3
      subst h3
      exact Or.inr ⟨rfl, parseWithRegex_statCount h2⟩
    | none =>
      rw [h2] at h
      simp only at h
      exact Or.inl (parseFlexible_props h).1

/-- Claim C3 witness: the amended claim instantiated at the stage-2 record
for `NAME: X\nTYPE: Y\nSPEED: 42`. -/
theorem claim_C3_witness :
    statFull monsterSpeed.stats ∨
    (parseWithRegex sampleSpeed = some monsterSpeed ∧ 1 ≤ statCount monsterSpeed.stats) :=
  claim_C3_amended sampleSpeed monsterSpeed (by decide)

/-- Claim C4, counterexample: on the prose input the stage-3 name is the
first capitalized word longer than 3 characters, which is `Introducing`, not
`Blazeclaw`. -/
theorem claim_C4_counterexample :
    (parseMonsterResponse blazeText).map (fun m => m.name) = some (str "Introducing") ∧
    str "Introducing" ≠ str "Blazeclaw" := by decide

/-- Claim C4 (amended): on `Introducing Blazeclaw! Power 95, guard 70,
swiftness 88.` stages 1 and 2 fail and stage 3 succeeds with name
`Introducing` (the first capitalized word), HP 95, Attack 70, Defense 88, and
Speed and Special defaulted to 60. -/
theorem claim_C4_amended :
    parseLineByLine blazeText = none ∧ parseWithRegex blazeText = none ∧
    parseFlexible blazeText = some monsterBlaze ∧
    parseMonsterResponse blazeText = some monsterBlaze := by decide

/-- Claim C5: whenever the stage-1 success preconditions hold (truthy name
and type, at least 3 stat keys found), extraction returns exactly the stage-1
record; stages 2 and 3 cannot affect the result. -/
theorem claim_C5 (r : List Char)
    (h1 : truthy (scanLines r).name = true)
    (h2 : truthy (scanLines r).type = true)
    (h3 : 3 ≤ statCount (scanLines r).stats) :
    parseLineByLine r = some (buildStage1 (scanLines r)) ∧
    parseMonsterResponse r = some (buildStage1 (scanLines r)) := by
  have hl : parseLineByLine r = some (buildStage1 (scanLines r)) := by
    unfold parseLineByLine
    rw [if_pos ⟨h1, h2, h3⟩]
  refine ⟨hl, ?_⟩
  unfold parseMonsterResponse
  rw [hl]

/-- Claim C5 witness: a concrete input satisfying the stage-1 preconditions
on which stage 2 would have produced a different record; the stage-1 result
wins. -/
theorem claim_C5_witness :
    (parseLineByLine sampleC5 = some (buildStage1 (scanLines sampleC5)) ∧
      parseMonsterResponse sampleC5 = some (buildStage1 (scanLines sampleC5))) ∧
    parseWithRegex sampleC5 ≠ some (buildStage1 (scanLines sampleC5)) :=
  ⟨claim_C5 sampleC5 (by decide) (by decide) (by decide), by decide⟩

/-- Claim C6: on any input containing no colon and fewer than 3 integer
tokens in [20,200], all three strategies fail and extraction returns Failure. -/
theorem claim_C6 (r : List Char) (h1 : ':' ∉ r)
    (h2 : (flexNumbers r).length < 3) :
    parseMonsterResponse r = none := by
  unfold parseMonsterResponse
  rw [parseLineByLine_noColon r h1]
  rw [parseWithRegex_noColon r h1]
  rw [parseFlexible_short r h2]

/-- Claim C6 witness: extraction fails on `hello there`. -/
theorem claim_C6_witness : parseMonsterResponse (str "hello there") = none :=
  claim_C6 (str "hello there") (by decide) (by decide)

/-- Claim C7: the retry wrapper makes at most `retries` attempts (one
text-source call each); whenever some attempt within the bound succeeds, it
returns the record of the first such attempt (and every returned record is
the record of the first successful attempt); and it reports Failure when no
attempt within the bound succeeds. -/
theorem claim_C7 (oracle : Nat → List Char) (retries : Nat) :
    (generateMonster oracle retries).2 ≤ retries ∧
    (∀ m, (generateMonster oracle retries).1 = some m →
      ∃ k, k < retries ∧ attemptResult oracle k = some m ∧
        ∀ j, j < k → attemptResult oracle j = none) ∧
    ((∀ k, k < retries → attemptResult oracle k = none) →
      (generateMonster oracle retries).1 = none) ∧
    (∀ k m, k < retries → attemptResult oracle k = some m →
      (∀ j, j < k → attemptResult oracle j = none) →
      (generateMonster oracle retries).1 = some m) := by
  have hs := genAux_spec oracle retries 0
  simp only [Nat.zero_add] at hs
  exact hs

/-- Claim C7 witness: with a text source that always returns the empty
string, two retries produce Failure; and with a text source whose first
response is empty and whose second parses via stage 1, the wrapper returns
that second attempt's record. -/
theorem claim_C7_witness :
    (generateMonster (fun _ => []) 2).1 = none ∧
    (generateMonster oracleC7 3).1 = some monsterC7 :=
  ⟨(claim_C7 (fun _ => []) 2).2.2.1 (fun k _ => rfl),
    (claim_C7 oracleC7 3).2.2.2 1 monsterC7 (by omega) (by decide)
      (fun j hj => by
        have hj0 : j = 0 := by omega
        rw [hj0]
        rfl)⟩

/-- Claim C8: extraction is a deterministic pure function; equal inputs give
identical results. -/
theorem claim_C8 (r1 r2 : List Char) (h : r1 = r2) :
    parseMonsterResponse r1 = parseMonsterResponse r2 := by
  rw [h]

/-- Claim C8 witness: the determinism claim instantiated at a concrete
input. -/
theorem claim_C8_witness :
    parseMonsterResponse (str "hello there") = parseMonsterResponse (str "hello there") :=
  claim_C8 (str "hello there") (str "hello there") rfl

/-- Claim C9, counterexample: a line whose uppercased key contains both
`SPECIAL` and `ATTACK` but also `NAME` is stored as the name, not as the
Attack stat, because `NAME` is tested first in the elif chain. -/
theorem claim_C9_counterexample :
    containsSub (str "SPECIAL") (toUpperL (str "name special attack")) = true ∧
    containsSub (str "ATTACK") (toUpperL (str "name special attack")) = true ∧
    (processLine initLineData trickyLine).stats.attack = none ∧
    (processLine initLineData trickyLine).name = some (str "80") := by decide

/-- Claim C9 (amended): for every key containing both `SPECIAL` and
`ATTACK` and none of the earlier synonyms `NAME`, `TYPE`, `DESCRIPTION`,
`DESC`, `HP`, the dispatched value is stored as the Attack stat and the
Special stat is left untouched. -/
theorem claim_C9_amended (d : LineData) (key value : List Char)
    (hsp : containsSub (str "SPECIAL") key = true)
    (hat : containsSub (str "ATTACK") key = true)
    (hn : containsSub (str "NAME") key = false)
    (ht : containsSub (str "TYPE") key = false)
    (hd1 : containsSub (str "DESCRIPTION") key = false)
    (hd2 : containsSub (str "DESC") key = false)
    (hhp : containsSub (str "HP") key = false) :
    (applyKV d key value).stats.attack = some (extractNumber value 50) ∧
    (applyKV d key value).stats.special = d.stats.special := by
  unfold applyKV
  rw [if_neg (by rw [hn]; exact Bool.false_ne_true)]
  rw [if_neg (by rw [ht]; exact Bool.false_ne_true)]
  rw [if_neg (by rw [hd1, hd2]; exact Bool.false_ne_true)]
  rw [if_neg (by rw [hhp]; exact Bool.false_ne_true)]
  rw [if_pos (by rw [hat]; rfl)]
  exact ⟨rfl, rfl⟩

/-- Claim C9 witness: the key `SPECIAL ATTACK` with value `80` stores
Attack 80 and leaves Special unset. -/
theorem claim_C9_witness :
    (applyKV initLineData (str "SPECIAL ATTACK") (str "80")).stats.attack =
      some (extractNumber (str "80") 50) ∧
    (applyKV initLineData (str "SPECIAL ATTACK") (str "80")).stats.special =
      initLineData.stats.special :=
  claim_C9_amended initLineData (str "SPECIAL ATTACK") (str "80")
    (by decide) (by decide) (by decide) (by decide) (by decide) (by decide) (by decide)

/-- Claim C10: the public entry point is total; for every input it returns
either Failure or some record. -/
theorem claim_C10 (r : List Char) :
    parseMonsterResponse r = none ∨ ∃ m, parseMonsterResponse r = some m := by
  cases h : parseMonsterResponse r with
  | none => exact Or.inl rfl
  | some m => exact Or.inr ⟨m, rfl⟩
